import Mathlib

/- Shallow embedding of the Landslide-Warning repository's risk-fusion core:
   `backtest_wayanad.py` (the historical forensic program, namespace `Backtest`)
   and `hill_safe.py` (the live dashboard, namespace `Hill`).  The external
   services (the Open-Meteo JSON API and the Earth Engine imagery service) are
   modelled as oracle inputs: an `Except String _` argument is `.error e` when
   some call inside the adapter's try block raises, and `.ok d` carries the
   data the services returned at each call boundary.  Machine floats are
   modelled as `ℚ`; Python `None` as `Option.none`.  Streamlit rendering is a
   side effect with no influence on the computed assessment and is omitted. -/

/-- One synthetic-aperture-radar acquisition over the 500 m region of interest:
its system time_start stamp, the date string the service formats for it, and
its VV backscatter band, modelled as a map from the `n` pixels of the region
to a rational backscatter value. -/
structure Scene (n : Nat) where
  time : Nat
  date : String
  vv : Fin n → ℚ

/-- Mean of a list of rationals: sum divided by length (`0` for the empty
list, a case no caller below reaches with a claim-relevant value). -/
def listMean (l : List ℚ) : ℚ := l.sum / l.length

/-- The area mean that `ee.Reducer.mean` computes over the region of
interest, the region being modelled as `n` pixels. -/
def regionMean (n : Nat) (f : Fin n → ℚ) : ℚ := listMean ((List.finRange n).map f)

/-- Largest element of a list, `0` when empty.  Pandas `.max()` of an empty
series is NaN, which, like `0`, satisfies none of the strict thresholds the
rules use, and the series values here are non-negative. -/
def listMax (l : List ℚ) : ℚ := l.foldr max 0

/-- Round to the nearest integer, ties to even, as fixed-point float
formatting does. -/
def roundHalfEven (q : ℚ) : ℤ :=
  if q - ⌊q⌋ < 1/2 then ⌊q⌋
  else if q - ⌊q⌋ > 1/2 then ⌊q⌋ + 1
  else if ⌊q⌋ % 2 = 0 then ⌊q⌋ else ⌊q⌋ + 1

/-- Render a non-negative integer `m`, already scaled by `10 ^ prec`, with
`prec` digits after the decimal point. -/
def fixedDigits (prec : Nat) (m : Nat) : String :=
  if prec = 0 then toString m
  else
    let frac := toString (m % 10 ^ prec)
    let pad := String.mk (List.replicate (prec - frac.length) '0')
    toString (m / 10 ^ prec) ++ "." ++ pad ++ frac

/-- Python's fixed-point format specifier with `prec` digits, applied to the
exact rational carried by the model. -/
def formatFixed (prec : Nat) (q : ℚ) : String :=
  let m := roundHalfEven (q * 10 ^ prec)
  if m < 0 then "-" ++ fixedDigits prec (-m).toNat else fixedDigits prec m.toNat

/-- Whether `pat` occurs as a contiguous substring of `s`. -/
def occursIn (pat s : String) : Bool :=
  (List.range (s.toList.length + 1)).any fun i =>
    (s.toList.drop i).take pat.toList.length == pat.toList

/-- The ordinal risk levels of the specification. -/
inductive Level
  | SAFE
  | WATCH
  | CRITICAL
deriving DecidableEq

/-- Ordinal rank of a level: SAFE below WATCH below CRITICAL. -/
def Level.toNat : Level → Nat
  | .SAFE => 0
  | .WATCH => 1
  | .CRITICAL => 2

/-- The specification's classifier from the count of triggered factors to a
level. -/
def classify (k : Nat) : Level :=
  if k = 0 then .SAFE else if k = 1 then .WATCH else .CRITICAL

/-- Status vocabulary of the specification's SignalSample. -/
inductive SampleStatus
  | OK
  | NO_DATA
  | STALE
  | ERROR
deriving DecidableEq

/-- The specification's normalized sensor reading. -/
structure SignalSample where
  value : Option ℚ
  status : SampleStatus
  observed_at : Option String
  metadata : String
deriving DecidableEq

/-- Most recent acquisition of a non-empty collection, the earlier one
winning a timestamp tie. -/
def specMostRecent (n : Nat) : Scene n → List (Scene n) → Scene n
  | a, [] => a
  | a, b :: rest =>
    let m := specMostRecent n b rest
    if m.time ≤ a.time then a else m

/-- The RadarChangeAdapter exactly as the specification describes it: NO_DATA
when either collection is empty, else OK whose value is the region mean of
the absolute difference between the most recent acquisition and the pixelwise
mean of the baseline acquisitions, and whose observation date is that of the
recent acquisition. -/
def radarChangeSpec (n : Nat) (recent baseline : List (Scene n)) : SignalSample :=
  match recent, baseline with
  | [], _ => ⟨none, .NO_DATA, none, "empty recent collection"⟩
  | _ :: _, [] => ⟨none, .NO_DATA, none, "empty baseline collection"⟩
  | a :: rest, bs =>
    let rc := specMostRecent n a rest
    let bc : Fin n → ℚ := fun p => listMean (bs.map fun s => s.vv p)
    ⟨some (regionMean n fun p => |rc.vv p - bc p|), .OK, some rc.date, "radar change"⟩

namespace Backtest

/-- get_historical_rain of backtest_wayanad.py.  The oracle is the parsed
hourly rain series, or `.error` for any exception inside the try block
(network failure, missing JSON key, parse error).  On success the code
returns the series total, the maximum hourly intensity, and the series; on
exception it reports to the UI and returns zeros with an empty frame. -/
def get_historical_rain : Except String (List ℚ) → ℚ × ℚ × List ℚ
  | .error _ => (0, 0, [])
  | .ok hourly => (hourly.sum, listMax hourly, hourly)

/-- get_sentinel_stability of backtest_wayanad.py over the July 2024
collection for the site: fewer than two acquisitions is a data gap, and
otherwise the score is the region mean of the absolute difference between
the latest and the earliest acquisition of the window. -/
def get_sentinel_stability (n : Nat) : Except String (List (Scene n)) → String × ℚ
  | .error e => ("Sentinel Error: " ++ e, 0)
  | .ok [] => ("Data Gap (Sentinel-1 Blind)", 0)
  | .ok [_] => ("Data Gap (Sentinel-1 Blind)", 0)
  | .ok (a :: b :: rest) =>
    let img_late := (b :: rest).foldl (fun x y => if x.time < y.time then y else x) a
    let img_early := (b :: rest).foldl (fun x y => if y.time < x.time then y else x) a
    ("Last Pass: " ++ img_late.date,
      regionMean n fun p => |img_late.vv p - img_early.vv p|)

/-- Oracle data for the SMAP fetch of backtest_wayanad.py: the collection
size the service reports and, for a positive size, the value of the point
reduction of the three-day mean composite.  The reduction is `none` when the
service returns a null for the band at the point (the imagery service never
guarantees an unmasked value there). -/
structure SmapData where
  count : Nat
  moisture : Option ℚ

/-- get_smap_moisture of backtest_wayanad.py.  Every failure path returns
the float 0.0, while a successful reduction passes the service's value
through unchanged, null included. -/
def get_smap_moisture : Except String SmapData → String × Option ℚ
  | .error e => ("SMAP Error: " ++ e, some 0)
  | .ok d =>
    if d.count = 0 then ("No SMAP Data", some 0) else ("Data Found", d.moisture)

/-- Rule 1 of the hybrid decision engine: structural failure. -/
def ruleGroundShift (sentinel_score : ℚ) : List String :=
  if sentinel_score > 2.0 then ["Ground Shift Detected (Sentinel-1)"] else []

/-- Rule 2: soil saturation.  The isinstance float guard of the source is
the match on `some`. -/
def ruleSoil : Option ℚ → List String
  | some v =>
    if v > 0.4 then ["Soil Saturated (" ++ formatFixed 2 v ++ " moisture)"] else []
  | none => []

/-- Rule 3: heavy rain.  Python renders the unformatted float total; the
exact rational's decimal string stands in for that rendering. -/
def ruleRain (rain_total : ℚ) : List String :=
  if rain_total > 200 then ["Extreme Rainfall (" ++ toString rain_total ++ "mm)"] else []

/-- The reasons list main accumulates, in source order. -/
def reasonsOf (sentinel_score : ℚ) (smap_score : Option ℚ) (rain_total : ℚ) : List String :=
  ruleGroundShift sentinel_score ++ ruleSoil smap_score ++ ruleRain rain_total

/-- The alert level and streamlit colour main derives from the count of
reasons. -/
def alert_level (reasons : List String) : String × String :=
  if reasons.length ≥ 2 then ("RED ALERT (EVACUATE)", "error")
  else if reasons.length = 1 then ("YELLOW ALERT (PREPARE)", "warning")
  else ("GREEN", "success")

/-- The decision core of main: fetch the three sources, evaluate the three
rules, classify the count. -/
def main (n : Nat) (rw : Except String (List ℚ)) (sw : Except String (List (Scene n)))
    (mw : Except String SmapData) : List String × String × String :=
  let rain := get_historical_rain rw
  let sent := get_sentinel_stability n sw
  let smap := get_smap_moisture mw
  let reasons := reasonsOf sent.2 smap.2 rain.1
  (reasons, alert_level reasons)

/-- The rain source counts as OK when the fetch succeeded and the series is
non-empty (an empty series is the provider answering with no data). -/
def rain_ok : Except String (List ℚ) → Bool
  | .error _ => false
  | .ok hourly => !hourly.isEmpty

/-- The radar source counts as OK when the fetch succeeded with at least two
acquisitions in the window. -/
def sentinel_ok (n : Nat) : Except String (List (Scene n)) → Bool
  | .error _ => false
  | .ok scenes => decide (2 ≤ scenes.length)

/-- The soil source counts as OK when the fetch succeeded with a non-empty
collection. -/
def smap_ok : Except String SmapData → Bool
  | .error _ => false
  | .ok d => decide (0 < d.count)

/-- Abstraction of the alert strings to the specification's ordinal levels:
GREEN is SAFE, the YELLOW prepare alert is WATCH, the RED evacuate alert is
CRITICAL. -/
def levelAbs (s : String) : Option Level :=
  if s = "GREEN" then some .SAFE
  else if s = "YELLOW ALERT (PREPARE)" then some .WATCH
  else if s = "RED ALERT (EVACUATE)" then some .CRITICAL
  else none

end Backtest

namespace Hill

/-- get_rainfall_data of hill_safe.py: the oracle is the parsed hourly
series of rain and precipitation-probability pairs for the next 48 hours.
On success the code returns the total expected rain, the peak probability,
and the series; on any exception it reports to the UI and returns zeros
with an empty frame. -/
def get_rainfall_data : Except String (List (ℚ × ℚ)) → ℚ × ℚ × List (ℚ × ℚ)
  | .error _ => (0, 0, [])
  | .ok hourly => ((hourly.map Prod.fst).sum, listMax (hourly.map Prod.snd), hourly)

/-- Oracle data for the live radar fetch of hill_safe.py: the acquisitions
of the last twelve days and those of the ninety-to-fifteen-days-ago
baseline window. -/
structure SarWorld (n : Nat) where
  current : List (Scene n)
  baseline : List (Scene n)

/-- get_sentinel_stability of hill_safe.py: the anomaly of the most recent
acquisition against the pixelwise mean of the baseline window, averaged
over the region of interest; a distinct no-data answer for each empty
collection. -/
def get_sentinel_stability (n : Nat) : Except String (SarWorld n) → String × ℚ × String
  | .error e => ("Error: " ++ e, 0, "Error")
  | .ok d =>
    match d.current with
    | [] => ("No recent pass", 0, "N/A")
    | a :: rest =>
      let current_img := rest.foldl (fun x y => if x.time < y.time then y else x) a
      match d.baseline with
      | [] => ("No baseline data", 0, "N/A")
      | b :: brest =>
        let baseline_mean : Fin n → ℚ := fun p => listMean ((b :: brest).map fun s => s.vv p)
        ("Active", regionMean n (fun p => |current_img.vv p - baseline_mean p|), current_img.date)

/-- Oracle data for the live SMAP fetch of hill_safe.py: the collection
size, the point reduction of the three-day mean composite (`none` for a
null reduction), and the date of the latest acquisition. -/
structure SmapData where
  count : Nat
  moisture : Option ℚ
  lastPass : String

/-- get_smap_moisture of hill_safe.py.  Every failure path returns the
float 0.0, while a successful reduction passes the service's value through
unchanged, null included. -/
def get_smap_moisture : Except String SmapData → String × Option ℚ × String
  | .error e => ("Error: " ++ e, some 0, "Error")
  | .ok d =>
    if d.count = 0 then ("No recent data", some 0, "N/A")
    else ("Working", d.moisture, d.lastPass)

/-- Heavy-rain-forecast factor of the hybrid risk engine. -/
def ruleHeavyRain (rain_forecast : ℚ) : List String :=
  if rain_forecast > 80 then
    ["⚠️ Heavy Rain Coming (" ++ formatFixed 1 rain_forecast ++ "mm)"]
  else []

/-- Storm-probability factor. -/
def ruleStorm (rain_chance : ℚ) : List String :=
  if rain_chance > 90 then ["☁️ 90% Chance of Storm"] else []

/-- Radar ground-movement factor. -/
def ruleRadar (sentinel_score : ℚ) : List String :=
  if sentinel_score > 2.0 then ["Hill Surface Changed (Radar)"] else []

/-- Soil-saturation factor.  The isinstance float guard of the source is
the match on `some`; the description renders the value as a percentage
with one decimal. -/
def ruleSoil : Option ℚ → List String
  | some v =>
    if v > 0.4 then ["Soil Too Wet (" ++ formatFixed 1 (v * 100) ++ "%)"] else []
  | none => []

/-- The risk-factor list main accumulates, in source order. -/
def risk_factors (rain_forecast rain_chance sentinel_score : ℚ)
    (smap_score : Option ℚ) : List String :=
  ruleHeavyRain rain_forecast ++ ruleStorm rain_chance
    ++ ruleRadar sentinel_score ++ ruleSoil smap_score

/-- The risk level and colour main derives from the count of factors. -/
def risk_level (factors : List String) : String × String :=
  if factors.length = 1 then ("BE CAREFUL", "orange")
  else if factors.length ≥ 2 then ("DANGER - LEAVE NOW", "red")
  else ("SAFE", "green")

/-- The decision core of main once the satellite session is established:
fetch the three sources, evaluate the four rules, classify the count. -/
def main (n : Nat) (rw : Except String (List (ℚ × ℚ))) (sw : Except String (SarWorld n))
    (mw : Except String SmapData) : List String × String × String :=
  let rain := get_rainfall_data rw
  let sent := get_sentinel_stability n sw
  let smap := get_smap_moisture mw
  let factors := risk_factors rain.1 rain.2.1 sent.2.1 smap.2.1
  (factors, risk_level factors)

/-- The rain source counts as OK when the fetch succeeded and the series is
non-empty. -/
def rain_ok : Except String (List (ℚ × ℚ)) → Bool
  | .error _ => false
  | .ok hourly => !hourly.isEmpty

/-- The radar source counts as OK when the fetch succeeded and both the
recent and the baseline collection are non-empty. -/
def sentinel_ok (n : Nat) : Except String (SarWorld n) → Bool
  | .error _ => false
  | .ok d => !d.current.isEmpty && !d.baseline.isEmpty

/-- The soil source counts as OK when the fetch succeeded with a non-empty
collection. -/
def smap_ok : Except String SmapData → Bool
  | .error _ => false
  | .ok d => decide (0 < d.count)

/-- Abstraction of the warning strings to the specification's ordinal
levels: SAFE is SAFE, the BE CAREFUL prepare warning is WATCH, the DANGER
evacuate warning is CRITICAL. -/
def levelAbs (s : String) : Option Level :=
  if s = "SAFE" then some .SAFE
  else if s = "BE CAREFUL" then some .WATCH
  else if s = "DANGER - LEAVE NOW" then some .CRITICAL
  else none

end Hill

/-- Rounding an integer changes nothing. -/
theorem roundHalfEven_intCast (z : ℤ) : roundHalfEven (z : ℚ) = z := by
  unfold roundHalfEven
  rw [Int.floor_intCast]
  norm_num

/-- formatFixed reduces to the digit renderer once the scaled value is a
known non-negative integer. -/
theorem formatFixed_of_eq_int (prec : Nat) (q : ℚ) (z : ℤ) (h : q * 10 ^ prec = (z : ℚ))
    (hz : 0 ≤ z) : formatFixed prec q = fixedDigits prec z.toNat := by
  unfold formatFixed
  rw [h, roundHalfEven_intCast, if_neg (by omega)]

/-- A failed or empty rain fetch of the historical program totals zero. -/
theorem Backtest.rain_total_of_not_ok (rw : Except String (List ℚ))
    (h : Backtest.rain_ok rw = false) : (Backtest.get_historical_rain rw).1 = 0 := by
  match rw with
  | .error e => rfl
  | .ok hourly =>
    cases hourly with
    | nil => rfl
    | cons a t => simp [Backtest.rain_ok] at h

/-- A failed or below-two-acquisition radar fetch of the historical program
scores zero. -/
theorem Backtest.sentinel_score_of_not_ok (n : Nat) (sw : Except String (List (Scene n)))
    (h : Backtest.sentinel_ok n sw = false) : (Backtest.get_sentinel_stability n sw).2 = 0 := by
  match sw with
  | .error e => rfl
  | .ok [] => rfl
  | .ok [a] => rfl
  | .ok (a :: b :: rest) => simp [Backtest.sentinel_ok] at h

/-- A failed or empty SMAP fetch of the historical program carries the
float 0.0. -/
theorem Backtest.smap_value_of_not_ok (mw : Except String Backtest.SmapData)
    (h : Backtest.smap_ok mw = false) : (Backtest.get_smap_moisture mw).2 = some 0 := by
  match mw with
  | .error e => rfl
  | .ok d =>
    simp [Backtest.smap_ok] at h
    simp [Backtest.get_smap_moisture, h]

/-- A failed or empty rain fetch of the live dashboard totals zero with zero
peak probability. -/
theorem Hill.rain_values_of_not_ok (rw : Except String (List (ℚ × ℚ)))
    (h : Hill.rain_ok rw = false) :
    (Hill.get_rainfall_data rw).1 = 0 ∧ (Hill.get_rainfall_data rw).2.1 = 0 := by
  match rw with
  | .error e => exact ⟨rfl, rfl⟩
  | .ok hourly =>
    cases hourly with
    | nil => exact ⟨rfl, rfl⟩
    | cons a t => simp [Hill.rain_ok] at h

/-- A failed radar fetch of the live dashboard, or one with an empty
collection, scores zero. -/
theorem Hill.sentinel_score_zero_when_failed (n : Nat) (sw : Except String (Hill.SarWorld n))
    (h : Hill.sentinel_ok n sw = false) : (Hill.get_sentinel_stability n sw).2.1 = 0 := by
  match sw with
  | .error e => rfl
  | .ok d =>
    match hc : d.current, hb : d.baseline with
    | [], _ => simp [Hill.get_sentinel_stability, hc]
    | a :: rest, [] => simp [Hill.get_sentinel_stability, hc, hb]
    | a :: rest, b :: brest => simp [Hill.sentinel_ok, hc, hb] at h

/-- A failed or empty SMAP fetch of the live dashboard carries the float
0.0. -/
theorem Hill.smap_value_zero_when_failed (mw : Except String Hill.SmapData)
    (h : Hill.smap_ok mw = false) : (Hill.get_smap_moisture mw).2.1 = some 0 := by
  match mw with
  | .error e => rfl
  | .ok d =>
    simp [Hill.smap_ok] at h
    simp [Hill.get_smap_moisture, h]

/-- The spec-side most-recent pick never lags its seed acquisition. -/
theorem specMostRecent_time_ge (n : Nat) (a : Scene n) (l : List (Scene n)) :
    a.time ≤ (specMostRecent n a l).time := by
  cases l with
  | nil => exact le_refl _
  | cons b rest =>
    simp only [specMostRecent]
    split
    · exact le_refl _
    · omega

/-- Folding the seed into the head first does not change the most-recent
pick. -/
theorem specMostRecent_cons (n : Nat) (a b : Scene n) (l : List (Scene n)) :
    specMostRecent n a (b :: l) = specMostRecent n (if a.time < b.time then b else a) l := by
  cases l with
  | nil =>
    simp only [specMostRecent]
    rcases Nat.lt_or_ge a.time b.time with hab | hab
    · rw [if_neg (by omega), if_pos hab]
    · rw [if_pos (by omega), if_neg (by omega)]
  | cons c rest =>
    have eq1 : specMostRecent n a (b :: c :: rest)
        = if (specMostRecent n b (c :: rest)).time ≤ a.time then a
          else specMostRecent n b (c :: rest) := rfl
    have eq2 : specMostRecent n b (c :: rest)
        = if (specMostRecent n c rest).time ≤ b.time then b
          else specMostRecent n c rest := rfl
    have eq3 : specMostRecent n a (c :: rest)
        = if (specMostRecent n c rest).time ≤ a.time then a
          else specMostRecent n c rest := rfl
    by_cases hab : a.time < b.time
    · rw [if_pos hab, eq1]
      have hb : b.time ≤ (specMostRecent n b (c :: rest)).time :=
        specMostRecent_time_ge n b (c :: rest)
      rw [if_neg (by omega)]
    · rw [if_neg hab, eq1, eq2, eq3]
      by_cases hmb : (specMostRecent n c rest).time ≤ b.time
      · rw [if_pos hmb, if_pos (by omega), if_pos (by omega)]
      · rw [if_neg hmb]

/-- The spec-side most-recent pick computes exactly the source's
descending-sort-then-first selection. -/
theorem specMostRecent_eq_foldl (n : Nat) (a : Scene n) (l : List (Scene n)) :
    specMostRecent n a l = l.foldl (fun x y => if x.time < y.time then y else x) a := by
  induction l generalizing a with
  | nil => rfl
  | cons b rest ih =>
    rw [specMostRecent_cons, List.foldl_cons]
    exact ih (if a.time < b.time then b else a)

/-- C1: Both programs map the count of triggered factors to the same ordinal
level: zero factors give SAFE, one factor gives the prepare-semantics WATCH
tier, two or more give the evacuate-semantics CRITICAL tier, and the mapping
is monotonically non-decreasing in the count. -/
theorem classifier_count_mapping (reasons : List String) :
    Backtest.levelAbs (Backtest.alert_level reasons).1 = some (classify reasons.length) ∧
    Hill.levelAbs (Hill.risk_level reasons).1 = some (classify reasons.length) ∧
    (∀ j k : Nat, j ≤ k → (classify j).toNat ≤ (classify k).toNat) := by
  refine ⟨?_, ?_, ?_⟩
  · rcases reasons with _ | ⟨a, _ | ⟨b, t⟩⟩
    · rfl
    · rfl
    · have h0 : (a :: b :: t).length ≠ 0 := by simp only [List.length_cons]; omega
      have h1 : (a :: b :: t).length ≠ 1 := by simp only [List.length_cons]; omega
      have h2 : (a :: b :: t).length ≥ 2 := by simp only [List.length_cons]; omega
      unfold Backtest.alert_level classify
      rw [if_pos h2, if_neg h0, if_neg h1]
      rfl
  · rcases reasons with _ | ⟨a, _ | ⟨b, t⟩⟩
    · rfl
    · rfl
    · have h0 : (a :: b :: t).length ≠ 0 := by simp only [List.length_cons]; omega
      have h1 : (a :: b :: t).length ≠ 1 := by simp only [List.length_cons]; omega
      have h2 : (a :: b :: t).length ≥ 2 := by simp only [List.length_cons]; omega
      unfold Hill.risk_level classify
      rw [if_neg h1, if_pos h2, if_neg h0, if_neg h1]
      rfl
  · intro j k h
    unfold classify
    split_ifs <;> simp [Level.toNat] <;> omega

/-- C1 witness: one factor classifies as WATCH in the historical program,
and rank is monotone from count one to count two. -/
theorem classifier_count_mapping_witness :
    Backtest.levelAbs (Backtest.alert_level ["Ground Shift Detected (Sentinel-1)"]).1
      = some (classify 1) ∧
    (classify 1).toNat ≤ (classify 2).toNat :=
  ⟨(classifier_count_mapping ["Ground Shift Detected (Sentinel-1)"]).1,
    (classifier_count_mapping []).2.2 1 2 (by omega)⟩

/-- C10: in both programs the level and its colour depend only on the count
of factors, not on which factors were triggered or their order. -/
theorem level_function_of_count (xs ys : List String) (h : xs.length = ys.length) :
    Backtest.alert_level xs = Backtest.alert_level ys ∧
    Hill.risk_level xs = Hill.risk_level ys := by
  unfold Backtest.alert_level Hill.risk_level
  rw [h]
  exact ⟨rfl, rfl⟩

/-- C10 witness: two different single factors produce identical level and
colour in both programs. -/
theorem level_function_of_count_witness :
    Backtest.alert_level ["Ground Shift Detected (Sentinel-1)"]
      = Backtest.alert_level ["Extreme Rainfall (250mm)"] ∧
    Hill.risk_level ["☁️ 90% Chance of Storm"]
      = Hill.risk_level ["Hill Surface Changed (Radar)"] :=
  ⟨(level_function_of_count ["Ground Shift Detected (Sentinel-1)"]
      ["Extreme Rainfall (250mm)"] rfl).1,
    (level_function_of_count ["☁️ 90% Chance of Storm"]
      ["Hill Surface Changed (Radar)"] rfl).2⟩

/-- C4: whatever exception a transport, parsing or upstream-service call
raises inside an adapter, every one of the six adapter functions returns
normally with its documented error result instead of propagating. -/
theorem adapters_absorb_exceptions (n : Nat) (e : String) :
    Backtest.get_historical_rain (Except.error e) = (0, 0, []) ∧
    Backtest.get_sentinel_stability n (Except.error e) = ("Sentinel Error: " ++ e, 0) ∧
    Backtest.get_smap_moisture (Except.error e) = ("SMAP Error: " ++ e, some 0) ∧
    Hill.get_rainfall_data (Except.error e) = (0, 0, []) ∧
    Hill.get_sentinel_stability n (Except.error e) = ("Error: " ++ e, 0, "Error") ∧
    Hill.get_smap_moisture (Except.error e) = ("Error: " ++ e, some 0, "Error") :=
  ⟨rfl, rfl, rfl, rfl, rfl, rfl⟩

/-- C5: the thresholds are strict in both programs: a radar score of
exactly 2.0 and a soil moisture of exactly 0.4 trigger nothing, so with
both sources at their thresholds only the rain rules can contribute. -/
theorem thresholds_strict (t c : ℚ) :
    Backtest.ruleGroundShift 2.0 = [] ∧ Backtest.ruleSoil (some 0.4) = [] ∧
    Hill.ruleRadar 2.0 = [] ∧ Hill.ruleSoil (some 0.4) = [] ∧
    Backtest.reasonsOf 2.0 (some 0.4) t = Backtest.ruleRain t ∧
    Hill.risk_factors t c 2.0 (some 0.4) = Hill.ruleHeavyRain t ++ Hill.ruleStorm c := by
  have h1 : Backtest.ruleGroundShift 2.0 = [] := by norm_num [Backtest.ruleGroundShift]
  have h2 : Backtest.ruleSoil (some 0.4) = [] := by norm_num [Backtest.ruleSoil]
  have h3 : Hill.ruleRadar 2.0 = [] := by norm_num [Hill.ruleRadar]
  have h4 : Hill.ruleSoil (some 0.4) = [] := by norm_num [Hill.ruleSoil]
  refine ⟨h1, h2, h3, h4, ?_, ?_⟩
  · unfold Backtest.reasonsOf
    rw [h1, h2]
    simp
  · unfold Hill.risk_factors
    rw [h3, h4]
    simp

/-- C2: a source whose sample is not OK (failed fetch or no data) triggers
none of the rules of its type, in either program: the error and no-data
paths all yield values below every strict threshold. -/
theorem non_ok_triggers_no_rule (n : Nat) (rwb : Except String (List ℚ))
    (swb : Except String (List (Scene n))) (mwb : Except String Backtest.SmapData)
    (rwh : Except String (List (ℚ × ℚ))) (swh : Except String (Hill.SarWorld n))
    (mwh : Except String Hill.SmapData) :
    (Backtest.rain_ok rwb = false →
      Backtest.ruleRain (Backtest.get_historical_rain rwb).1 = []) ∧
    (Backtest.sentinel_ok n swb = false →
      Backtest.ruleGroundShift (Backtest.get_sentinel_stability n swb).2 = []) ∧
    (Backtest.smap_ok mwb = false →
      Backtest.ruleSoil (Backtest.get_smap_moisture mwb).2 = []) ∧
    (Hill.rain_ok rwh = false →
      Hill.ruleHeavyRain (Hill.get_rainfall_data rwh).1 = [] ∧
      Hill.ruleStorm (Hill.get_rainfall_data rwh).2.1 = []) ∧
    (Hill.sentinel_ok n swh = false →
      Hill.ruleRadar (Hill.get_sentinel_stability n swh).2.1 = []) ∧
    (Hill.smap_ok mwh = false →
      Hill.ruleSoil (Hill.get_smap_moisture mwh).2.1 = []) := by
  refine ⟨fun h => ?_, fun h => ?_, fun h => ?_, fun h => ⟨?_, ?_⟩, fun h => ?_, fun h => ?_⟩
  · rw [Backtest.rain_total_of_not_ok rwb h]
    norm_num [Backtest.ruleRain]
  · rw [Backtest.sentinel_score_of_not_ok n swb h]
    norm_num [Backtest.ruleGroundShift]
  · rw [Backtest.smap_value_of_not_ok mwb h]
    norm_num [Backtest.ruleSoil]
  · rw [(Hill.rain_values_of_not_ok rwh h).1]
    norm_num [Hill.ruleHeavyRain]
  · rw [(Hill.rain_values_of_not_ok rwh h).2]
    norm_num [Hill.ruleStorm]
  · rw [Hill.sentinel_score_zero_when_failed n swh h]
    norm_num [Hill.ruleRadar]
  · rw [Hill.smap_value_zero_when_failed mwh h]
    norm_num [Hill.ruleSoil]

/-- C2 witness: with every fetch failing, no rule of either program
triggers. -/
theorem non_ok_triggers_no_rule_witness :
    Backtest.ruleRain (Backtest.get_historical_rain (Except.error "down")).1 = [] ∧
    Backtest.ruleGroundShift (Backtest.get_sentinel_stability 1 (Except.error "down")).2 = [] ∧
    Backtest.ruleSoil (Backtest.get_smap_moisture (Except.error "down")).2 = [] ∧
    Hill.ruleHeavyRain (Hill.get_rainfall_data (Except.error "down")).1 = [] ∧
    Hill.ruleStorm (Hill.get_rainfall_data (Except.error "down")).2.1 = [] ∧
    Hill.ruleRadar (Hill.get_sentinel_stability 1 (Except.error "down")).2.1 = [] ∧
    Hill.ruleSoil (Hill.get_smap_moisture (Except.error "down")).2.1 = [] := by
  have h := non_ok_triggers_no_rule 1 (Except.error "down") (Except.error "down")
    (Except.error "down") (Except.error "down") (Except.error "down") (Except.error "down")
  exact ⟨h.1 rfl, h.2.1 rfl, h.2.2.1 rfl, (h.2.2.2.1 rfl).1, (h.2.2.2.1 rfl).2,
    h.2.2.2.2.1 rfl, h.2.2.2.2.2 rfl⟩

/-- C3: when all three sources of a program fail (status ERROR or NO_DATA),
its pipeline still completes: the factor list is empty and the level is the
SAFE one; no partial assessment is rejected. -/
theorem all_sources_failed_safe (n : Nat) (rwb : Except String (List ℚ))
    (swb : Except String (List (Scene n))) (mwb : Except String Backtest.SmapData)
    (rwh : Except String (List (ℚ × ℚ))) (swh : Except String (Hill.SarWorld n))
    (mwh : Except String Hill.SmapData)
    (h1 : Backtest.rain_ok rwb = false) (h2 : Backtest.sentinel_ok n swb = false)
    (h3 : Backtest.smap_ok mwb = false) (h4 : Hill.rain_ok rwh = false)
    (h5 : Hill.sentinel_ok n swh = false) (h6 : Hill.smap_ok mwh = false) :
    Backtest.main n rwb swb mwb = ([], "GREEN", "success") ∧
    Hill.main n rwh swh mwh = ([], "SAFE", "green") := by
  have hb : Backtest.reasonsOf (Backtest.get_sentinel_stability n swb).2
      (Backtest.get_smap_moisture mwb).2 (Backtest.get_historical_rain rwb).1 = [] := by
    rw [Backtest.rain_total_of_not_ok rwb h1, Backtest.sentinel_score_of_not_ok n swb h2,
      Backtest.smap_value_of_not_ok mwb h3]
    norm_num [Backtest.reasonsOf, Backtest.ruleGroundShift, Backtest.ruleSoil, Backtest.ruleRain]
  have hh : Hill.risk_factors (Hill.get_rainfall_data rwh).1 (Hill.get_rainfall_data rwh).2.1
      (Hill.get_sentinel_stability n swh).2.1 (Hill.get_smap_moisture mwh).2.1 = [] := by
    rw [(Hill.rain_values_of_not_ok rwh h4).1, (Hill.rain_values_of_not_ok rwh h4).2,
      Hill.sentinel_score_zero_when_failed n swh h5, Hill.smap_value_zero_when_failed mwh h6]
    norm_num [Hill.risk_factors, Hill.ruleHeavyRain, Hill.ruleStorm, Hill.ruleRadar, Hill.ruleSoil]
  constructor
  · simp only [Backtest.main]
    rw [hb]
    rfl
  · simp only [Hill.main]
    rw [hh]
    rfl

/-- C3 witness: both pipelines at three failed fetches produce the empty
factor list and the SAFE level. -/
theorem all_sources_failed_safe_witness :
    Backtest.main 1 (Except.error "a") (Except.error "b") (Except.error "c")
      = ([], "GREEN", "success") ∧
    Hill.main 1 (Except.error "a") (Except.error "b") (Except.error "c")
      = ([], "SAFE", "green") :=
  all_sources_failed_safe 1 (Except.error "a") (Except.error "b") (Except.error "c")
    (Except.error "a") (Except.error "b") (Except.error "c") rfl rfl rfl rfl rfl rfl

/-- C6: in forecast mode the rain source contributes two independent
factors: at total 85 mm and probability 95 with radar and soil not
triggering, exactly the heavy-rain and storm factors appear, the level is
the evacuate DANGER tier, and each rain rule contributes its factor exactly
when its own threshold is crossed. -/
theorem forecast_rain_two_factors (s : ℚ) (m : Option ℚ)
    (hs : Hill.ruleRadar s = []) (hm : Hill.ruleSoil m = []) :
    Hill.risk_factors 85 95 s m
      = ["⚠️ Heavy Rain Coming (85.0mm)", "☁️ 90% Chance of Storm"] ∧
    Hill.risk_level (Hill.risk_factors 85 95 s m) = ("DANGER - LEAVE NOW", "red") ∧
    Hill.levelAbs "DANGER - LEAVE NOW" = some Level.CRITICAL ∧
    (∀ t c : ℚ, (Hill.ruleHeavyRain t).length = (if t > 80 then 1 else 0) ∧
      (Hill.ruleStorm c).length = (if c > 90 then 1 else 0)) := by
  have h85 : Hill.ruleHeavyRain 85 = ["⚠️ Heavy Rain Coming (85.0mm)"] := by
    simp only [Hill.ruleHeavyRain]
    rw [if_pos (by norm_num), formatFixed_of_eq_int 1 85 850 (by norm_num) (by norm_num)]
    decide
  have h95 : Hill.ruleStorm 95 = ["☁️ 90% Chance of Storm"] := by
    simp only [Hill.ruleStorm]
    rw [if_pos (by norm_num)]
  have hf : Hill.risk_factors 85 95 s m
      = ["⚠️ Heavy Rain Coming (85.0mm)", "☁️ 90% Chance of Storm"] := by
    unfold Hill.risk_factors
    rw [h85, h95, hs, hm]
    rfl
  refine ⟨hf, ?_, rfl, ?_⟩
  · rw [hf]
    rfl
  · intro t c
    constructor
    · by_cases ht : t > 80 <;> simp [Hill.ruleHeavyRain, ht]
    · by_cases hc : c > 90 <;> simp [Hill.ruleStorm, hc]

/-- C6 witness: at radar score 0 and a null soil value the two rain factors
and the DANGER level appear. -/
theorem forecast_rain_two_factors_witness :
    Hill.risk_factors 85 95 0 none
      = ["⚠️ Heavy Rain Coming (85.0mm)", "☁️ 90% Chance of Storm"] ∧
    Hill.risk_level (Hill.risk_factors 85 95 0 none) = ("DANGER - LEAVE NOW", "red") := by
  have h := forecast_rain_two_factors 0 none (by norm_num [Hill.ruleRadar]) rfl
  exact ⟨h.1, h.2.1⟩

/-- C7: the live radar adapter refines the specification's
RadarChangeAdapter: the spec sample is NO_DATA exactly when a collection is
empty, in which case the adapter answers with its matching no-data status
and a zero score, and when the spec sample is OK the adapter reports
Active with exactly the spec's change score, the region mean of the
absolute difference between the most recent acquisition and the baseline
mean, observed at the recent acquisition's date. -/
theorem radar_adapter_matches_spec (n : Nat) (recent baseline : List (Scene n)) :
    ((radarChangeSpec n recent baseline).status = SampleStatus.NO_DATA ↔
      (recent = [] ∨ baseline = [])) ∧
    ((radarChangeSpec n recent baseline).status = SampleStatus.OK ↔
      (Hill.get_sentinel_stability n (Except.ok ⟨recent, baseline⟩)).1 = "Active") ∧
    ((radarChangeSpec n recent baseline).status = SampleStatus.NO_DATA →
      ((Hill.get_sentinel_stability n (Except.ok ⟨recent, baseline⟩)).1 = "No recent pass" ∨
        (Hill.get_sentinel_stability n (Except.ok ⟨recent, baseline⟩)).1 = "No baseline data") ∧
      (Hill.get_sentinel_stability n (Except.ok ⟨recent, baseline⟩)).2.1 = 0) ∧
    ((radarChangeSpec n recent baseline).status = SampleStatus.OK →
      (radarChangeSpec n recent baseline).value
        = some ((Hill.get_sentinel_stability n (Except.ok ⟨recent, baseline⟩)).2.1) ∧
      (radarChangeSpec n recent baseline).observed_at
        = some ((Hill.get_sentinel_stability n (Except.ok ⟨recent, baseline⟩)).2.2)) := by
  rcases recent with _ | ⟨a, rest⟩
  · refine ⟨by simp [radarChangeSpec], ?_, fun h => ⟨Or.inl rfl, rfl⟩,
      fun h => by simp [radarChangeSpec] at h⟩
    constructor
    · intro h
      simp [radarChangeSpec] at h
    · intro h
      simp [Hill.get_sentinel_stability] at h
  · rcases baseline with _ | ⟨b, brest⟩
    · refine ⟨by simp [radarChangeSpec], ?_, fun h => ⟨Or.inr rfl, rfl⟩,
        fun h => by simp [radarChangeSpec] at h⟩
      constructor
      · intro h
        simp [radarChangeSpec] at h
      · intro h
        simp [Hill.get_sentinel_stability] at h
    · refine ⟨?_, ?_, fun h => by simp [radarChangeSpec] at h, fun h => ?_⟩
      · constructor
        · intro h
          simp [radarChangeSpec] at h
        · intro h
          rcases h with h | h <;> simp at h
      · constructor
        · intro h
          rfl
        · intro h
          rfl
      · have hfold := specMostRecent_eq_foldl n a rest
        constructor
        · simp only [radarChangeSpec, Hill.get_sentinel_stability]
          rw [hfold]
        · simp only [radarChangeSpec, Hill.get_sentinel_stability]
          rw [hfold]

/-- C7 witness: on one recent acquisition of value 5 and two baseline
acquisitions of values 3 and 1, the spec value and the adapter score agree
and equal 3. -/
theorem radar_adapter_matches_spec_witness :
    (radarChangeSpec 1 [⟨10, "2025-10-01", fun _ => 5⟩]
        [⟨1, "2025-08-01", fun _ => 3⟩, ⟨2, "2025-08-13", fun _ => 1⟩]).value
      = some ((Hill.get_sentinel_stability 1 (Except.ok ⟨[⟨10, "2025-10-01", fun _ => 5⟩],
        [⟨1, "2025-08-01", fun _ => 3⟩, ⟨2, "2025-08-13", fun _ => 1⟩]⟩)).2.1) ∧
    (Hill.get_sentinel_stability 1 (Except.ok ⟨[⟨10, "2025-10-01", fun _ => 5⟩],
        [⟨1, "2025-08-01", fun _ => 3⟩, ⟨2, "2025-08-13", fun _ => 1⟩]⟩)).2.1 = 3 := by
  constructor
  · exact ((radar_adapter_matches_spec 1 [⟨10, "2025-10-01", fun _ => 5⟩]
      [⟨1, "2025-08-01", fun _ => 3⟩, ⟨2, "2025-08-13", fun _ => 1⟩]).2.2.2 rfl).1
  · have h1 : List.finRange 1 = [(0 : Fin 1)] := rfl
    simp [Hill.get_sentinel_stability, regionMean, listMean, h1]
    norm_num

/-- C8 counterexample: value non-null iff status OK fails in both
directions: the historical SMAP adapter answers an exception with the
non-null sentinel 0.0 under an error status, and the live SMAP adapter
passes a null point reduction through under the OK-style Working status. -/
theorem smap_value_status_counterexample :
    Backtest.get_smap_moisture (Except.error "HTTP 500")
      = ("SMAP Error: HTTP 500", some 0) ∧
    Hill.get_smap_moisture (Except.ok ⟨2, none, "2025-10-01"⟩)
      = ("Working", none, "2025-10-01") :=
  ⟨rfl, rfl⟩

/-- C8 amended: every non-OK path of the two SMAP adapters carries the
non-null sentinel 0.0 rather than null, and a null value occurs only under
the OK-style status, where the isinstance guard keeps it from triggering
the soil rule. -/
theorem smap_value_status_amended (mwb : Except String Backtest.SmapData)
    (mwh : Except String Hill.SmapData) :
    (Backtest.smap_ok mwb = false → (Backtest.get_smap_moisture mwb).2 = some 0) ∧
    ((Backtest.get_smap_moisture mwb).2 = none →
      (Backtest.get_smap_moisture mwb).1 = "Data Found" ∧
      Backtest.ruleSoil (Backtest.get_smap_moisture mwb).2 = []) ∧
    (Hill.smap_ok mwh = false → (Hill.get_smap_moisture mwh).2.1 = some 0) ∧
    ((Hill.get_smap_moisture mwh).2.1 = none →
      (Hill.get_smap_moisture mwh).1 = "Working" ∧
      Hill.ruleSoil (Hill.get_smap_moisture mwh).2.1 = []) := by
  refine ⟨Backtest.smap_value_of_not_ok mwb, fun h => ⟨?_, by rw [h]; rfl⟩,
    Hill.smap_value_zero_when_failed mwh, fun h => ⟨?_, by rw [h]; rfl⟩⟩
  · match mwb with
    | .error e => simp [Backtest.get_smap_moisture] at h
    | .ok d =>
      by_cases hc : d.count = 0
      · simp [Backtest.get_smap_moisture, hc] at h
      · simp [Backtest.get_smap_moisture, hc]
  · match mwh with
    | .error e => simp [Hill.get_smap_moisture] at h
    | .ok d =>
      by_cases hc : d.count = 0
      · simp [Hill.get_smap_moisture, hc] at h
      · simp [Hill.get_smap_moisture, hc]

/-- C8 amended witness: a failed historical fetch carries the non-null 0.0,
and a null live reduction keeps the Working status. -/
theorem smap_value_status_amended_witness :
    (Backtest.get_smap_moisture (Except.error "timeout")).2 = some 0 ∧
    (Hill.get_smap_moisture (Except.ok ⟨3, none, "2025-10-02"⟩)).1 = "Working" :=
  ⟨(smap_value_status_amended (Except.error "timeout") (Except.error "timeout")).1 rfl,
    ((smap_value_status_amended (Except.error "timeout")
      (Except.ok ⟨3, none, "2025-10-02"⟩)).2.2.2 rfl).1⟩

/-- C9 counterexample: at measured moisture 0.45 the forecast rule set
renders the factor as a one-decimal percentage, and the two-decimal
rendering of the measured value, 0.45, does not occur in that
description. -/
theorem hill_soil_not_two_decimal :
    Hill.ruleSoil (some (9/20)) = ["Soil Too Wet (45.0%)"] ∧
    formatFixed 2 (9/20) = "0.45" ∧
    occursIn "0.45" "Soil Too Wet (45.0%)" = false := by
  refine ⟨?_, ?_, by decide⟩
  · simp only [Hill.ruleSoil]
    rw [if_pos (by norm_num),
      formatFixed_of_eq_int 1 ((9 : ℚ)/20 * 100) 450 (by norm_num) (by norm_num)]
    decide
  · rw [formatFixed_of_eq_int 2 ((9 : ℚ)/20) 45 (by norm_num) (by norm_num)]
    decide

/-- C9 amended: when the soil rule triggers, the historical rule set embeds
the measured value to two-decimal precision while the forecast rule set
embeds it as a percentage to one-decimal precision. -/
theorem soil_description_formats (v : ℚ) (h : v > 0.4) :
    Backtest.ruleSoil (some v)
      = ["Soil Saturated (" ++ formatFixed 2 v ++ " moisture)"] ∧
    Hill.ruleSoil (some v)
      = ["Soil Too Wet (" ++ formatFixed 1 (v * 100) ++ "%)"] := by
  constructor
  · simp only [Backtest.ruleSoil]
    rw [if_pos h]
  · simp only [Hill.ruleSoil]
    rw [if_pos h]

/-- C9 amended witness: at measured moisture 0.55 the two descriptions
render as 0.55 and as 55.0 percent. -/
theorem soil_description_formats_witness :
    Backtest.ruleSoil (some (11/20)) = ["Soil Saturated (0.55 moisture)"] ∧
    Hill.ruleSoil (some (11/20)) = ["Soil Too Wet (55.0%)"] := by
  have h := soil_description_formats (11/20) (by norm_num)
  refine ⟨h.1.trans ?_, h.2.trans ?_⟩
  · rw [formatFixed_of_eq_int 2 ((11 : ℚ)/20) 55 (by norm_num) (by norm_num)]
    decide
  · rw [formatFixed_of_eq_int 1 ((11 : ℚ)/20 * 100) 550 (by norm_num) (by norm_num)]
    decide
